import Mathlib

/-!
Verification of `datetools.py` (mjtb-django-tools).

Shallow embedding of the date utilities module: `date_now`, `convert_date`,
`get_midnight`, `next_midnight`, `last_midnight` and `delta_as_text`.

Modelling conventions:

* A timestamp (`DT`) is a clock reading, measured in whole minutes on the
  clock face since a fixed epoch (this is in bijection with the
  year/month/day/hour/minute tuple that the Python `datetime` carries; the
  second/microsecond parts play no role in any claim and are absorbed in the
  linear reading), together with an optional attached timezone.  `tz = none`
  models a naive datetime.
* A timezone (`Tz`) is a name (what Python's `str(tz)` prints; `str(utc)` is
  `"UTC"`) together with a fixed UTC offset in minutes.  Daylight-saving
  rules live in the external zone library and are out of scope, exactly as
  the module delegates them; `pytz.normalize` is the identity on this model.
* External collaborators (the fuzzy parser, the calendar-delta calculator
  `relativedelta`, `strftime`, the process current timezone, and the instant
  "now") are fields of an explicit context `Ctx`, following the interfaces
  the module relies on: the parser yields a timestamp, a "no usable result"
  outcome, or a lookup (`KeyError`) failure — the two failure modes the code
  distinguishes (`if datecon: ... else: return False` and
  `except KeyError: return False`).
* Dynamically-typed Python arguments are modelled by `PyVal`; Python
  exceptions by `Except PyExc`.  `PyExc.parseFailure` is the distinguishable
  parse-failure outcome the documentation speaks about; the code itself
  signals parse failure by *returning* `False` (modelled `Except.ok none`),
  and never raises `parseFailure`.
* Django helpers: `make_aware(d, z)` attaches `z` to a naive reading without
  shifting it; `localtime(d, z)` converts an aware reading to zone `z`
  preserving the instant; both raise on the wrong kind of input, and both
  raise a `TypeError` when handed something that is not a timezone at all.
-/

/-- A timezone: printable name and fixed UTC offset in minutes. -/
structure Tz where
  name : String
  offsetMin : Int
deriving DecidableEq, Repr

/-- Embeds `django.utils.timezone.utc` — `str(utc) = "UTC"`, offset 0. -/
def utcTz : Tz := ⟨"UTC", 0⟩

/-- A datetime value: clock reading in minutes since the epoch, as displayed
on the clock face, plus the attached timezone (`none` = naive). -/
structure DT where
  clock : Int
  tz : Option Tz
deriving DecidableEq, Repr

/-- The absolute instant an aware datetime denotes (UTC minutes);
`none` for a naive datetime, which denotes no instant by itself. -/
def instantOf (d : DT) : Option Int :=
  d.tz.map (fun z => d.clock - z.offsetMin)

/-- Python exceptions that can escape the embedded functions.
`parseFailure` is the distinguishable parse-failure outcome named by the
documentation; the embedded code never constructs it (it returns the
non-value `False` instead). -/
inductive PyExc where
  | typeError
  | valueError
  | parseFailure
deriving DecidableEq, Repr

/-- Outcome of the external fuzzy parser `dateutil.parser.parse` as the
module consumes it: a parsed (naive or aware) timestamp, no usable result
(falsy return), or a parser-level lookup error (`KeyError`). -/
inductive ParseOutcome where
  | ok (d : DT)
  | noParse
  | keyError
deriving DecidableEq, Repr

/-- The fields of `dateutil.relativedelta` that `delta_as_text` reads. -/
structure Delta where
  years : Int
  months : Int
  days : Int
  hours : Int
  minutes : Int
deriving DecidableEq, Repr

/-- A dynamically-typed Python argument value. -/
inductive PyVal where
  | vNone
  | vFalse
  | vTrue
  | vInt (n : Int)
  | vStr (s : String)
  | vTz (z : Tz)
  | vDt (d : DT)
deriving DecidableEq, Repr

/-- Python truthiness of a `PyVal`. -/
def truthy : PyVal → Bool
  | .vNone => false
  | .vFalse => false
  | .vTrue => true
  | .vInt n => n ≠ 0
  | .vStr s => s ≠ ""
  | .vTz _ => true
  | .vDt _ => true

/-- Python `str()` of a `PyVal` (the cases the module exercises). -/
def pyToStr : PyVal → String
  | .vNone => "None"
  | .vFalse => "False"
  | .vTrue => "True"
  | .vInt n => toString n
  | .vStr s => s
  | .vTz z => z.name
  | .vDt _ => "datetime"

/-- Python `str.lower()` (ASCII case folding, which covers every string the
module compares after lowering). -/
def pyLower (s : String) : String :=
  ⟨s.data.map Char.toLower⟩

/-- Result of `date_now`: a datetime, or a string when `format` is given. -/
inductive DnRes where
  | dt (d : DT)
  | str (s : String)
deriving DecidableEq, Repr

/-- The external context: process current timezone, the instant now (as the
UTC clock reading `datetime.utcnow()` captures), the fuzzy parser, the
calendar-delta calculator, and `strftime` rendering. -/
structure Ctx where
  currentTz : Tz
  nowUtcClock : Int
  parse : String → ParseOutcome
  rdelta : DT → DT → Delta
  strftime : DT → String → String

/-- Embeds `django.utils.timezone.make_aware(value, timezone)`: attach a zone to a
naive reading (assume semantics, no shifting); raises on aware input. -/
def make_aware (d : DT) (z : Tz) : Except PyExc DT :=
  match d.tz with
  | none => .ok ⟨d.clock, some z⟩
  | some _ => .error .valueError

/-- Embeds `django.utils.timezone.localtime(value, timezone)`: re-express an aware
reading in zone `z`, preserving the instant; raises on naive input. -/
def localtime (d : DT) (z : Tz) : Except PyExc DT :=
  match d.tz with
  | none => .error .valueError
  | some z0 => .ok ⟨d.clock - z0.offsetMin + z.offsetMin, some z⟩

/-- Embeds `ISO8601_DATE_FORMAT = "%Y-%m-%dT%H:%M:%S%z"` (datetools.py 50). -/
def ISO8601_DATE_FORMAT : String := "%Y-%m-%dT%H:%M:%S%z"

/-- Lines 67-86 of datetools.py: the timezone phase of `date_now`, computing
the aware `now` value before the `format` flag is examined. -/
def date_now_aware (ctx : Ctx) (local_tz : PyVal) (tzArg : PyVal) :
    Except PyExc DT := do
  -- now = datetime_dumb.utcnow().replace(tzinfo=utc)
  let now : DT := ⟨ctx.nowUtcClock, some utcTz⟩
  -- if not local_tz and tz is not None: local_tz = tz
  let ltz : PyVal :=
    if !(truthy local_tz) && tzArg ≠ PyVal.vNone then tzArg else local_tz
  -- if local_tz and str(local_tz) not in ("utc", "UTC"):
  if truthy ltz && pyToStr ltz ≠ "utc" && pyToStr ltz ≠ "UTC" then
    -- if str(local_tz).lower() == "local" or local_tz in (True, 1, "true"):
    let target : PyVal :=
      if pyLower (pyToStr ltz) = "local" || ltz = PyVal.vTrue
          || ltz = PyVal.vInt 1 || ltz = PyVal.vStr "true" then
        .vTz ctx.currentTz
      else ltz
    match target with
    | .vTz z =>
      -- if is_naive(now): make_aware(now, target) else: localtime(now, target)
      if now.tz = none then make_aware now z else localtime now z
    | _ => .error .typeError  -- not a tzinfo: astimezone/localize blows up
  else pure now

/-- Embeds `date_now(local_tz=False, format=None, tz=None)` (datetools.py 53-93). -/
def date_now (ctx : Ctx) (local_tz : PyVal := .vFalse)
    (format : Option String := none) (tzArg : PyVal := .vNone) :
    Except PyExc DnRes := do
  let now ← date_now_aware ctx local_tz tzArg
  -- if format: (iso aliases, then strftime)
  match format with
  | none => pure (.dt now)
  | some f =>
    if f ≠ "" then
      let f2 := if pyLower f = "iso" || pyLower f = "iso8601" then
          ISO8601_DATE_FORMAT else f
      pure (.str (ctx.strftime now f2))
    else pure (.dt now)

/-- The timezone-defaulting of `convert_date` (datetools.py 115-118):
`if not tz or tz == "local": tz = get_current_timezone()
 elif str(tz).lower() == "utc": tz = utc`; anything that then still is not a
tzinfo raises a `TypeError` when `make_aware`/`localtime` consume it. -/
def resolveTzConvert (ctx : Ctx) (tzv : PyVal) : Except PyExc Tz :=
  if !(truthy tzv) || tzv = PyVal.vStr "local" then .ok ctx.currentTz
  else if pyLower (pyToStr tzv) = "utc" then .ok utcTz
  else
    match tzv with
    | .vTz z => .ok z
    | _ => .error .typeError

/-- Embeds `convert_date(datestr, tz=False)` (datetools.py 96-128).  Returns
`Except.ok none` for the `return False` paths (parser gave no usable result,
or raised `KeyError`). -/
def convert_date (ctx : Ctx) (datestr : PyVal) (tzv : PyVal := .vFalse) :
    Except PyExc (Option DT) := do
  -- isinstance(datestr, (datetime, datetime_dumb))
  let parsed : Option DT ←
    match datestr with
    | .vDt d => pure (some d)
    | .vStr s =>
      match ctx.parse s with
      | .ok d => pure (some d)
      | .noParse => pure none        -- parse returned a falsy result
      | .keyError => pure none       -- except KeyError: return False
    | _ => .error .typeError         -- dateutil rejects non-string input
  match parsed with
  | none => pure none                -- if datecon: ... else: return False
  | some datecon => do
    let z ← resolveTzConvert ctx tzv
    if datecon.tz = none then
      -- make this timezone aware now (assume semantics)
      let r ← make_aware datecon z
      pure (some r)
    else
      -- already aware: convert to the specified timezone
      let r ← localtime datecon z
      pure (some r)

/-- Embeds `get_midnight(dt, offset)` (datetools.py 131-142); `normalize` of the
external zone library is the identity on fixed-offset zones. A day is 1440
clock minutes; `datetime.combine(d, time(0,0,0))` keeps `d`'s calendar date
and sets the clock to 00:00, i.e. floors the reading to a multiple of 1440
(Lean's `Int` `%` is Euclidean, so `c - c % 1440` is the greatest multiple
of 1440 that is `≤ c`), and returns a naive value. -/
def get_midnight (ctx : Ctx) (dt : DT) (offset : Int) : Except PyExc DT := do
  let current_tz := ctx.currentTz
  -- local = current_tz.normalize(dt.astimezone(current_tz))
  let localdt ← localtime dt current_tz
  -- o = datetime.combine(local + timedelta(days=offset), time(0, 0, 0))
  let shifted : Int := localdt.clock + offset * 1440
  let o : DT := ⟨shifted - shifted % 1440, none⟩
  -- return make_aware(o, get_current_timezone())
  make_aware o ctx.currentTz

/-- Embeds `next_midnight(dt) = get_midnight(dt, 1)` (datetools.py 144-150). -/
def next_midnight (ctx : Ctx) (dt : DT) : Except PyExc DT :=
  get_midnight ctx dt 1

/-- Embeds `last_midnight(dt) = get_midnight(dt, 0)` (datetools.py 152-158). -/
def last_midnight (ctx : Ctx) (dt : DT) : Except PyExc DT :=
  get_midnight ctx dt 0

/-- Embeds `django.utils.translation.ungettext(singular, plural, number)` with no
translation catalog: singular exactly when the count equals 1. -/
def pstatChoose (singular plural : String) (n : Int) : String :=
  if n = 1 then singular else plural

/-- Python `%`-formatting scanner for the one directive the module uses:
every occurrence of the placeholder `%(count)d` in the template becomes the
decimal rendering of `n` (Python `%d` and Lean `toString` agree on `Int`),
every other character is copied through. -/
def pyPctCount (n : Int) : List Char → List Char
  | '%' :: '(' :: 'c' :: 'o' :: 'u' :: 'n' :: 't' :: ')' :: 'd' :: rest =>
    (toString n).data ++ pyPctCount n rest
  | c :: rest => c :: pyPctCount n rest
  | [] => []

/-- Python `template % ("count": n)` for the module's templates. -/
def pyFormatCount (template : String) (n : Int) : String :=
  ⟨pyPctCount n template.data⟩

/-- Python single-character substring test `"c" in s`. -/
def hasChar (s : String) (c : Char) : Bool :=
  c ∈ s.data

/-- Embeds `do_years = "Y" in include or "y" in include` (datetools.py 193). -/
def do_years (inc : String) : Bool :=
  hasChar inc 'Y' || hasChar inc 'y'

/-- Embeds `do_months = "m" in include or "b" in include or "B" in include`
(datetools.py 194). -/
def do_months (inc : String) : Bool :=
  hasChar inc 'm' || hasChar inc 'b' || hasChar inc 'B'

/-- Embeds `do_days = "d" in include or "D" in include` (datetools.py 195). -/
def do_days (inc : String) : Bool :=
  hasChar inc 'd' || hasChar inc 'D'

/-- Embeds `do_hours = "H" in include or "h" in include` (datetools.py 196). -/
def do_hours (inc : String) : Bool :=
  hasChar inc 'H' || hasChar inc 'h'

/-- Embeds `do_minutes = "M" in include or "i" in include or "I" in include`
(datetools.py 197). -/
def do_minutes (inc : String) : Bool :=
  hasChar inc 'M' || hasChar inc 'i' || hasChar inc 'I'

/-- The fragment list `out_desc` that datetools.py 199-214 builds: one
appended fragment per selected, not zero-suppressed unit, in source order
years, months, days, hours, minutes. -/
def out_desc (delta : Delta) (inc : String) (include_zeros : Bool) :
    List String :=
  (if do_years inc && (include_zeros || delta.years ≠ 0) then
      [pyFormatCount (pstatChoose "%(count)d year" "%(count)d years"
        delta.years) delta.years] else []) ++
  (if do_months inc && (include_zeros || delta.months ≠ 0) then
      [pyFormatCount (pstatChoose "%(count)d month" "%(count)d months"
        delta.months) delta.months] else []) ++
  (if do_days inc && (include_zeros || delta.days ≠ 0) then
      [pyFormatCount (pstatChoose "%(count)d day" "%(count)d days"
        delta.days) delta.days] else []) ++
  (if do_hours inc && (include_zeros || delta.hours ≠ 0) then
      [pyFormatCount (pstatChoose "%(count)d hour" "%(count)d hours"
        delta.hours) delta.hours] else []) ++
  (if do_minutes inc && (include_zeros || delta.minutes ≠ 0) then
      [pyFormatCount (pstatChoose "%(count)d minute" "%(count)d minutes"
        delta.minutes) delta.minutes] else [])

/-- Lines 193-217 of datetools.py: build `out_desc` from the computed delta
and join with `", "`. -/
def delta_text_core (delta : Delta) (inc : String) (include_zeros : Bool) :
    String :=
  String.intercalate ", " (out_desc delta inc include_zeros)

/-- Embeds `delta_as_text(dt1, dt2=None, tz1="utc", tz2="utc", include="YmdHM",
include_zeros=True)` (datetools.py 161-217).  `relativedelta(dt1=a, dt2=b)`
takes its date-diffing branch only under its guard `if dt1 and dt2:`; when
`convert_date` signalled parse failure by returning the falsy `False`, the
guard short-circuits into the keyword ("relative") branch, whose defaulted
arguments build an all-zero delta — nothing is raised. -/
def delta_as_text (ctx : Ctx) (dt1 : PyVal) (dt2 : PyVal := .vNone)
    (tz1 : PyVal := .vStr "utc") (tz2 : PyVal := .vStr "utc")
    (inc : String := "YmdHM") (include_zeros : Bool := true) :
    Except PyExc String :=
  -- dt1 = convert_date(dt1, tz1)
  match convert_date ctx dt1 tz1 with
  | .error e => .error e
  | .ok d1 =>
    -- if dt2: dt2 = convert_date(dt2, tz2) else: dt2 = date_now(local_tz=tz2)
    match
      (if truthy dt2 then convert_date ctx dt2 tz2
       else
         match date_now ctx tz2 none .vNone with
         | .error e => .error e
         | .ok (.dt d) => .ok (some d)
         | .ok (.str _) => .ok none)   -- unreachable: no format was passed
      with
    | .error e => .error e
    | .ok d2 =>
      -- delta = relativedelta(dt2, dt1): diffs only when both args are
      -- truthy datetimes, else the zero "relative" delta
      let delta : Delta :=
        match d2, d1 with
        | some b, some a => ctx.rdelta b a
        | _, _ => ⟨0, 0, 0, 0, 0⟩
      .ok (delta_text_core delta inc include_zeros)

/-! Spec-side definitions.

These transcribe the specification's words (not the source) and exist to be
compared with the source-derived definitions above. -/

/-- The five renderable units, in the spec's fixed order. -/
inductive DUnit where
  | years
  | months
  | days
  | hours
  | minutes
deriving DecidableEq, Repr

/-- The spec's fixed unit order years, months, days, hours, minutes. -/
def unitOrder : List DUnit :=
  [DUnit.years, DUnit.months, DUnit.days, DUnit.hours, DUnit.minutes]

/-- The spec's alias groups: years=(Y,y), months=(m,b,B), days=(d,D),
hours=(H,h), minutes=(M,i,I). -/
def groupChars : DUnit → List Char
  | .years => ['Y', 'y']
  | .months => ['m', 'b', 'B']
  | .days => ['d', 'D']
  | .hours => ['H', 'h']
  | .minutes => ['M', 'i', 'I']

/-- Spec selection rule: a unit is selected when the selector string
contains one of its alias letters. -/
def selectedSpec (inc : String) (u : DUnit) : Bool :=
  (groupChars u).any (fun c => hasChar inc c)

/-- The delta field belonging to a unit. -/
def deltaVal (delta : Delta) : DUnit → Int
  | .years => delta.years
  | .months => delta.months
  | .days => delta.days
  | .hours => delta.hours
  | .minutes => delta.minutes

/-- Spec rendering rule for one fragment: the count followed by the
singular unit name for count 1, the plural name otherwise. -/
def renderSpec (u : DUnit) (n : Int) : String :=
  toString n ++
    (if n = 1 then
      match u with
      | .years => " year"
      | .months => " month"
      | .days => " day"
      | .hours => " hour"
      | .minutes => " minute"
    else
      match u with
      | .years => " years"
      | .months => " months"
      | .days => " days"
      | .hours => " hours"
      | .minutes => " minutes")

/-- Spec fragment list: for each unit in fixed order, a fragment exactly
when the unit is selected and (zeros are included or its value is nonzero). -/
def fragmentsSpec (delta : Delta) (inc : String) (include_zeros : Bool) :
    List String :=
  unitOrder.flatMap (fun u =>
    if selectedSpec inc u && (include_zeros || deltaVal delta u ≠ 0) then
      [renderSpec u (deltaVal delta u)]
    else [])

/-- Spec algorithm for `get_midnight`: convert to the current local zone,
take the calendar date, add the day offset to the date, midnight on that
date, attach the current zone with assume semantics. -/
def midnightSpec (ctx : Ctx) (dt : DT) (offset : Int) : Except PyExc DT := do
  let localdt ← localtime dt ctx.currentTz
  let dateStart : Int := localdt.clock - localdt.clock % 1440
  make_aware ⟨dateStart + offset * 1440, none⟩ ctx.currentTz

/-- The selector letters the module recognises (union of the alias groups). -/
def recognizedChars : List Char :=
  ['Y', 'y', 'm', 'b', 'B', 'd', 'D', 'H', 'h', 'M', 'i', 'I']

/-- A concrete external context used to instantiate the general theorems:
current zone CET (UTC+60 minutes), a fixed "now", a parser that resolves one
naive reading, raises a lookup error on one input and fails on the rest, a
delta calculator and a strftime renderer with recognisable outputs. -/
def ctxW : Ctx :=
  { currentTz := ⟨"CET", 60⟩, nowUtcClock := 100000,
    parse := fun s =>
      if s = "2017-04-12" then .ok ⟨5000, none⟩
      else if s = "lookup" then .keyError
      else .noParse,
    rdelta := fun b a => ⟨b.clock - a.clock, 0, 0, 0, 0⟩,
    strftime := fun d f => f ++ "@" ++ toString d.clock }

/-! Helper lemmas shared across the claim theorems. -/

lemma pure_eq_ok {α : Type} (a : α) : (pure a : Except PyExc α) = .ok a := rfl

lemma ok_bind {α β : Type} (a : α) (f : α → Except PyExc β) :
    (Except.ok a : Except PyExc α) >>= f = f a := rfl

lemma err_bind {α β : Type} (e : PyExc) (f : α → Except PyExc β) :
    (Except.error e : Except PyExc α) >>= f = .error e := rfl

lemma frag_years (n : Int) :
    pyFormatCount (pstatChoose "%(count)d year" "%(count)d years" n) n =
      renderSpec .years n := by
  by_cases h : n = 1
  · subst h; rfl
  · simp only [pstatChoose, if_neg h, pyFormatCount, pyPctCount, renderSpec]
    rfl

lemma frag_months (n : Int) :
    pyFormatCount (pstatChoose "%(count)d month" "%(count)d months" n) n =
      renderSpec .months n := by
  by_cases h : n = 1
  · subst h; rfl
  · simp only [pstatChoose, if_neg h, pyFormatCount, pyPctCount, renderSpec]
    rfl

lemma frag_days (n : Int) :
    pyFormatCount (pstatChoose "%(count)d day" "%(count)d days" n) n =
      renderSpec .days n := by
  by_cases h : n = 1
  · subst h; rfl
  · simp only [pstatChoose, if_neg h, pyFormatCount, pyPctCount, renderSpec]
    rfl

lemma frag_hours (n : Int) :
    pyFormatCount (pstatChoose "%(count)d hour" "%(count)d hours" n) n =
      renderSpec .hours n := by
  by_cases h : n = 1
  · subst h; rfl
  · simp only [pstatChoose, if_neg h, pyFormatCount, pyPctCount, renderSpec]
    rfl

lemma frag_minutes (n : Int) :
    pyFormatCount (pstatChoose "%(count)d minute" "%(count)d minutes" n) n =
      renderSpec .minutes n := by
  by_cases h : n = 1
  · subst h; rfl
  · simp only [pstatChoose, if_neg h, pyFormatCount, pyPctCount, renderSpec]
    rfl

lemma do_years_eq (inc : String) : do_years inc = selectedSpec inc .years := by
  simp [do_years, selectedSpec, groupChars]

lemma do_months_eq (inc : String) : do_months inc = selectedSpec inc .months := by
  simp [do_months, selectedSpec, groupChars, Bool.or_assoc]

lemma do_days_eq (inc : String) : do_days inc = selectedSpec inc .days := by
  simp [do_days, selectedSpec, groupChars]

lemma do_hours_eq (inc : String) : do_hours inc = selectedSpec inc .hours := by
  simp [do_hours, selectedSpec, groupChars]

lemma do_minutes_eq (inc : String) : do_minutes inc = selectedSpec inc .minutes := by
  simp [do_minutes, selectedSpec, groupChars, Bool.or_assoc]

lemma out_desc_eq (delta : Delta) (inc : String) (iz : Bool) :
    out_desc delta inc iz = fragmentsSpec delta inc iz := by
  simp only [out_desc, fragmentsSpec, unitOrder, List.flatMap_cons, List.flatMap_nil,
    List.append_nil, deltaVal, do_years_eq, do_months_eq, do_days_eq, do_hours_eq,
    do_minutes_eq, frag_years, frag_months, frag_days, frag_hours, frag_minutes,
    List.append_assoc]

lemma hasChar_push (s : String) (c x : Char) :
    hasChar (s.push c) x = (hasChar s x || c = x) := by
  simp [hasChar, String.push, List.mem_append, Or.comm, eq_comm, Bool.or_comm]

lemma pyLower_ne_empty {s : String}
    (h : pyLower s = "local" ∨ pyLower s = "utc") : s ≠ "" := by
  rintro rfl
  rcases h with h | h <;> exact absurd h (by decide)

lemma convert_date_aware_vTz (ctx : Ctx) (t : DT) (z0 z : Tz)
    (h : t.tz = some z0) :
    convert_date ctx (.vDt t) (.vTz z) =
      .ok (some ⟨t.clock - z0.offsetMin +
        (if pyLower z.name = "utc" then utcTz else z).offsetMin,
        some (if pyLower z.name = "utc" then utcTz else z)⟩) := by
  by_cases hz : pyLower z.name = "utc" <;>
    simp [convert_date, resolveTzConvert, truthy, pyToStr, hz, h, localtime,
      pure_eq_ok, ok_bind]

/-! Claim theorems. -/

/-- C1 (code evaluated at the failing input): with the parser unable to
resolve the empty string, `convert_date` duly returns the `False` non-value,
but `delta_as_text` never checks it: the falsy value short-circuits
`relativedelta`'s `if dt1 and dt2:` guard into an all-zero delta, so the
call silently succeeds and renders the all-zero span (or, with
`include_zeros=False`, the empty string) — the partial/garbage output the
claim forbids — instead of failing with ParseFailure. -/
theorem delta_as_text_unparseable_zero_output :
    ctxW.parse "" = .noParse ∧
    convert_date ctxW (.vStr "") (.vStr "utc") = .ok none ∧
    delta_as_text ctxW (.vStr "") (.vDt ⟨0, some utcTz⟩) (.vStr "utc")
        (.vStr "utc") "YmdHM" true =
      .ok "0 years, 0 months, 0 days, 0 hours, 0 minutes" ∧
    delta_as_text ctxW (.vStr "") (.vDt ⟨0, some utcTz⟩) (.vStr "utc")
        (.vStr "utc") "YmdHM" false = .ok "" :=
  ⟨rfl, rfl, rfl, rfl⟩

/-- C2: whenever the fuzzy parser yields no usable result, or raises a
parser-level lookup error, `convert_date` returns the distinguishable
non-value `False` (here `Except.ok none`) — not a generic exception — for
any timezone argument. -/
theorem convert_date_parse_failure (ctx : Ctx) (s : String) (tzv : PyVal)
    (h : ctx.parse s = .noParse ∨ ctx.parse s = .keyError) :
    convert_date ctx (.vStr s) tzv = .ok none := by
  rcases h with h | h <;> (simp only [convert_date, h]; rfl)

/-- C2 (witness): both failure modes on concrete inputs. -/
theorem convert_date_parse_failure_witness :
    (ctxW.parse "nonsense" = .noParse ∧
      convert_date ctxW (.vStr "nonsense") (.vStr "utc") = .ok none) ∧
    (ctxW.parse "lookup" = .keyError ∧
      convert_date ctxW (.vStr "lookup") .vFalse = .ok none) :=
  ⟨⟨rfl, convert_date_parse_failure ctxW "nonsense" (.vStr "utc") (.inl rfl)⟩,
    ⟨rfl, convert_date_parse_failure ctxW "lookup" .vFalse (.inr rfl)⟩⟩

/-- C3: the delta renderer emits, for each unit in the fixed order years,
months, days, hours, minutes, a fragment exactly when that unit is selected
and (zeros are included or the unit's value is nonzero), rendered with the
singular name for count 1 and the plural name otherwise; fragments are
joined with ", " in that fixed order regardless of selector-string order,
and the result is the empty string when no fragment is emitted.  The last
conjunct ties the renderer to `delta_as_text` itself. -/
theorem delta_as_text_fixed_order_rendering :
    (∀ delta inc iz, delta_text_core delta inc iz =
        String.intercalate ", " (fragmentsSpec delta inc iz)) ∧
    (∀ delta inc iz, fragmentsSpec delta inc iz = [] →
        delta_text_core delta inc iz = "") ∧
    (∀ delta inc inc2 iz, (∀ c, hasChar inc c = hasChar inc2 c) →
        delta_text_core delta inc iz = delta_text_core delta inc2 iz) ∧
    (∀ ctx dt1 dt2 tz1 tz2 e1 e2 inc iz,
        convert_date ctx dt1 tz1 = .ok (some e1) →
        truthy dt2 = true →
        convert_date ctx dt2 tz2 = .ok (some e2) →
        delta_as_text ctx dt1 dt2 tz1 tz2 inc iz =
          .ok (delta_text_core (ctx.rdelta e2 e1) inc iz)) := by
  refine ⟨?_, ?_, ?_, ?_⟩
  · intro delta inc iz
    simp [delta_text_core, out_desc_eq]
  · intro delta inc iz h
    simp [delta_text_core, out_desc_eq, h, String.intercalate]
  · intro delta inc inc2 iz h
    simp only [delta_text_core, out_desc, do_years, do_months, do_days, do_hours,
      do_minutes, h]
  · intro ctx dt1 dt2 tz1 tz2 e1 e2 inc iz h1 h2 h3
    simp only [delta_as_text, h1, h2, h3, if_pos]

/-- C3 (witness): a concrete run through `delta_as_text`, all hypotheses
discharged by evaluation. -/
theorem delta_as_text_fixed_order_rendering_witness :
    convert_date ctxW (.vDt ⟨10, some utcTz⟩) (.vStr "utc") =
        .ok (some ⟨10, some utcTz⟩) ∧
    truthy (.vDt ⟨1450, some utcTz⟩) = true ∧
    convert_date ctxW (.vDt ⟨1450, some utcTz⟩) (.vStr "utc") =
        .ok (some ⟨1450, some utcTz⟩) ∧
    delta_as_text ctxW (.vDt ⟨10, some utcTz⟩) (.vDt ⟨1450, some utcTz⟩)
        (.vStr "utc") (.vStr "utc") "YmdHM" true =
      .ok "1440 years, 0 months, 0 days, 0 hours, 0 minutes" := by
  refine ⟨rfl, rfl, rfl, ?_⟩
  have h := delta_as_text_fixed_order_rendering.2.2.2 ctxW
    (.vDt ⟨10, some utcTz⟩) (.vDt ⟨1450, some utcTz⟩) (.vStr "utc")
    (.vStr "utc") ⟨10, some utcTz⟩ ⟨1450, some utcTz⟩ "YmdHM" true
    rfl rfl rfl
  rw [h]
  rfl

/-- C4 (counterexample): `date_now` with no zone specifier returns the
timestamp still attached to UTC, not to the process current timezone (CET
in this context), so it is not "expressed in the process's configured
current timezone". -/
theorem date_now_default_zone_counterexample :
    date_now ctxW .vFalse none .vNone = .ok (.dt ⟨100000, some utcTz⟩) ∧
    utcTz ≠ ctxW.currentTz := by
  exact ⟨rfl, by decide⟩

/-- C4 (amended): `date_now` with no zone specifier performs no conversion
at all: it returns the UTC-attached reading of the captured instant, which
trivially denotes the same absolute instant as the UTC reading (it is that
reading); it is expressed in the current timezone only when that timezone
is UTC. -/
theorem date_now_default_stays_utc (ctx : Ctx) :
    date_now ctx .vFalse none .vNone =
      .ok (.dt ⟨ctx.nowUtcClock, some utcTz⟩) ∧
    instantOf ⟨ctx.nowUtcClock, some utcTz⟩ = some ctx.nowUtcClock := by
  constructor
  · rfl
  · simp [instantOf, utcTz]

/-- C5 (counterexample): timezone strings are NOT resolved case-insensitively
in both functions: `date_now` treats the casing "Utc" as an explicit zone
handle and fails with a `TypeError` instead of resolving UTC, and
`convert_date` treats the casing "Local" the same way instead of resolving
the current timezone. -/
theorem tz_casing_counterexample :
    date_now ctxW (.vStr "Utc") none .vNone = .error .typeError ∧
    convert_date ctxW (.vDt ⟨5000, none⟩) (.vStr "Local") = .error .typeError :=
  ⟨rfl, rfl⟩

/-- C5 (amended): case-insensitive resolution holds only partially, and
asymmetrically.  `date_now` resolves "local" case-insensitively to the
current timezone but accepts only the exact casings "utc"/"UTC" for UTC —
any other casing of "utc" fails with a `TypeError`.  `convert_date` resolves
"utc" case-insensitively to UTC but accepts only the exact lowercase
"local" (or a falsy specifier) for the current timezone — any other casing
of "local" fails with a `TypeError`. -/
theorem tz_resolution_casing (ctx : Ctx) :
    (∀ s, pyLower s = "local" →
        date_now ctx (.vStr s) none .vNone =
          .ok (.dt ⟨ctx.nowUtcClock + ctx.currentTz.offsetMin,
            some ctx.currentTz⟩)) ∧
    (date_now ctx (.vStr "utc") none .vNone =
        .ok (.dt ⟨ctx.nowUtcClock, some utcTz⟩) ∧
      date_now ctx (.vStr "UTC") none .vNone =
        .ok (.dt ⟨ctx.nowUtcClock, some utcTz⟩)) ∧
    (∀ s, pyLower s = "utc" → s ≠ "utc" → s ≠ "UTC" →
        date_now ctx (.vStr s) none .vNone = .error .typeError) ∧
    (∀ s, pyLower s = "utc" → resolveTzConvert ctx (.vStr s) = .ok utcTz) ∧
    (resolveTzConvert ctx (.vStr "local") = .ok ctx.currentTz ∧
      resolveTzConvert ctx .vFalse = .ok ctx.currentTz) ∧
    (∀ s, pyLower s = "local" → s ≠ "local" →
        resolveTzConvert ctx (.vStr s) = .error .typeError) := by
  refine ⟨?_, ⟨rfl, rfl⟩, ?_, ?_, ⟨rfl, rfl⟩, ?_⟩
  · intro s h
    have hne : s ≠ "" := pyLower_ne_empty (.inl h)
    have hu1 : s ≠ "utc" := by rintro rfl; exact absurd h (by decide)
    have hu2 : s ≠ "UTC" := by rintro rfl; exact absurd h (by decide)
    simp [date_now, date_now_aware, truthy, pyToStr, hne, hu1, hu2, h,
      localtime, utcTz]
  · intro s h hu1 hu2
    have hne : s ≠ "" := pyLower_ne_empty (.inr h)
    have htrue : s ≠ "true" := by rintro rfl; exact absurd h (by decide)
    simp [date_now, date_now_aware, truthy, pyToStr, hne, hu1, hu2, htrue, h]
  · intro s h
    have hne : s ≠ "" := pyLower_ne_empty (.inr h)
    have hloc : s ≠ "local" := by rintro rfl; exact absurd h (by decide)
    simp [resolveTzConvert, truthy, pyToStr, hne, hloc, h]
  · intro s h hloc
    have hne : s ≠ "" := pyLower_ne_empty (.inl h)
    simp [resolveTzConvert, truthy, pyToStr, hne, hloc, h]

/-- C5 (witness): the amended theorem evaluated at mixed-case specifiers. -/
theorem tz_resolution_casing_witness :
    pyLower "LOCAL" = "local" ∧
    date_now ctxW (.vStr "LOCAL") none .vNone =
      .ok (.dt ⟨100060, some ⟨"CET", 60⟩⟩) ∧
    pyLower "UtC" = "utc" ∧
    date_now ctxW (.vStr "UtC") none .vNone = .error .typeError ∧
    resolveTzConvert ctxW (.vStr "uTc") = .ok utcTz ∧
    resolveTzConvert ctxW (.vStr "LoCal") = .error .typeError := by
  refine ⟨by decide, ?_, by decide, ?_, ?_, ?_⟩
  · have h := (tz_resolution_casing ctxW).1 "LOCAL" (by decide)
    rw [h]
    rfl
  · exact (tz_resolution_casing ctxW).2.2.1 "UtC" (by decide) (by decide)
      (by decide)
  · exact (tz_resolution_casing ctxW).2.2.2.1 "uTc" (by decide)
  · exact (tz_resolution_casing ctxW).2.2.2.2.2 "LoCal" (by decide)
      (by decide)

/-- C6: for every zone-aware timestamp `t` and zone `z`, `convert_date`
performs an instant-preserving conversion, and converting the result back
to `t`'s original zone again yields the same instant as `t` (round-trip). -/
theorem convert_date_roundtrip_instant (ctx : Ctx) (t : DT) (z0 : Tz)
    (z : Tz) (h : t.tz = some z0) :
    ∃ t1 t2, convert_date ctx (.vDt t) (.vTz z) = .ok (some t1) ∧
      instantOf t1 = instantOf t ∧
      convert_date ctx (.vDt t1) (.vTz z0) = .ok (some t2) ∧
      instantOf t2 = instantOf t := by
  have h1 := convert_date_aware_vTz ctx t z0 z h
  refine ⟨_, _, h1, ?_, convert_date_aware_vTz ctx _ _ z0 rfl, ?_⟩
  · simp [instantOf, h]
  · simp [instantOf, h]

/-- C6 (witness): round-trip on a concrete aware timestamp through a
concrete zone. -/
theorem convert_date_roundtrip_instant_witness :
    (⟨5000, some ⟨"EET", 120⟩⟩ : DT).tz = some ⟨"EET", 120⟩ ∧
    ∃ t1 t2,
      convert_date ctxW (.vDt ⟨5000, some ⟨"EET", 120⟩⟩) (.vTz ⟨"X", 30⟩) =
          .ok (some t1) ∧
        instantOf t1 = instantOf ⟨5000, some ⟨"EET", 120⟩⟩ ∧
        convert_date ctxW (.vDt t1) (.vTz ⟨"EET", 120⟩) = .ok (some t2) ∧
        instantOf t2 = instantOf ⟨5000, some ⟨"EET", 120⟩⟩ :=
  ⟨rfl, convert_date_roundtrip_instant ctxW ⟨5000, some ⟨"EET", 120⟩⟩
    ⟨"EET", 120⟩ ⟨"X", 30⟩ rfl⟩

/-- C7: on a naive timestamp, `convert_date` applies assume semantics —
it attaches the target zone and leaves the clock reading unchanged — while
an aware timestamp takes the convert branch (instant-preserving
`localtime`).  The hypothesis `hz` only rules out the degenerate model
artifact of a zone whose name reads "utc" but which is not the UTC zone. -/
theorem convert_date_naive_assume (ctx : Ctx) (z : Tz)
    (hz : pyLower z.name = "utc" → z = utcTz) :
    (∀ t : DT, t.tz = none →
        convert_date ctx (.vDt t) (.vTz z) = .ok (some ⟨t.clock, some z⟩)) ∧
    (∀ (t : DT) (z0 : Tz), t.tz = some z0 →
        convert_date ctx (.vDt t) (.vTz z) =
          .ok (some ⟨t.clock - z0.offsetMin + z.offsetMin, some z⟩)) := by
  have hr : resolveTzConvert ctx (.vTz z) = .ok z := by
    by_cases hu : pyLower z.name = "utc"
    · rw [hz hu]
      rfl
    · simp [resolveTzConvert, truthy, pyToStr, hu]
  constructor
  · intro t ht
    simp [convert_date, hr, ht, make_aware, pure_eq_ok, ok_bind]
  · intro t z0 ht
    simp [convert_date, hr, ht, localtime, pure_eq_ok, ok_bind]

/-- C7 (witness): a naive reading is tagged in place, an aware reading is
converted, on concrete inputs. -/
theorem convert_date_naive_assume_witness :
    (⟨777, none⟩ : DT).tz = none ∧
    convert_date ctxW (.vDt ⟨777, none⟩) (.vTz ⟨"EET", 120⟩) =
      .ok (some ⟨777, some ⟨"EET", 120⟩⟩) ∧
    convert_date ctxW (.vDt ⟨500, some ⟨"X", 30⟩⟩) (.vTz ⟨"EET", 120⟩) =
      .ok (some ⟨590, some ⟨"EET", 120⟩⟩) := by
  have h := convert_date_naive_assume ctxW ⟨"EET", 120⟩
    (fun hh => absurd hh (by decide))
  refine ⟨rfl, h.1 ⟨777, none⟩ rfl, ?_⟩
  rw [h.2 ⟨500, some ⟨"X", 30⟩⟩ ⟨"X", 30⟩ rfl]
  rfl

/-- C8: `delta_as_text` selects units by letter membership with the alias
groups years=(Y,y), months=(m,b,B), days=(d,D), hours=(H,h),
minutes=(M,i,I); in particular "Y" and "y" select the same unit and "B" and
"m" both select months; a letter outside the groups never changes the
selection and never causes an error, and with nothing selected the renderer
returns the empty string. -/
theorem delta_selector_alias_groups :
    (∀ inc, do_years inc = selectedSpec inc .years ∧
        do_months inc = selectedSpec inc .months ∧
        do_days inc = selectedSpec inc .days ∧
        do_hours inc = selectedSpec inc .hours ∧
        do_minutes inc = selectedSpec inc .minutes) ∧
    (do_years "Y" = true ∧ do_years "y" = true ∧
        do_months "B" = true ∧ do_months "m" = true) ∧
    (∀ inc c, c ∉ recognizedChars →
        do_years (inc.push c) = do_years inc ∧
        do_months (inc.push c) = do_months inc ∧
        do_days (inc.push c) = do_days inc ∧
        do_hours (inc.push c) = do_hours inc ∧
        do_minutes (inc.push c) = do_minutes inc) ∧
    (∀ delta iz inc, (∀ u, selectedSpec inc u = false) →
        delta_text_core delta inc iz = "") := by
  refine ⟨?_, by decide, ?_, ?_⟩
  · intro inc
    exact ⟨do_years_eq inc, do_months_eq inc, do_days_eq inc, do_hours_eq inc,
      do_minutes_eq inc⟩
  · intro inc c h
    simp only [recognizedChars, List.mem_cons, List.not_mem_nil, or_false,
      not_or] at h
    obtain ⟨h1, h2, h3, h4, h5, h6, h7, h8, h9, h10, h11, h12⟩ := h
    refine ⟨?_, ?_, ?_, ?_, ?_⟩ <;>
      simp [do_years, do_months, do_days, do_hours, do_minutes, hasChar_push,
        h1, h2, h3, h4, h5, h6, h7, h8, h9, h10, h11, h12]
  · intro delta iz inc h
    simp [delta_text_core, out_desc, do_years_eq, do_months_eq, do_days_eq,
      do_hours_eq, do_minutes_eq, h, String.intercalate]

/-- C8 (witness): an unrecognised letter leaves the selection unchanged, and
a selector with no recognised letters renders the empty string. -/
theorem delta_selector_alias_groups_witness :
    ('q' ∉ recognizedChars ∧ do_years ("Ym".push 'q') = do_years "Ym") ∧
    ((∀ u, selectedSpec "zx" u = false) ∧
      delta_text_core ⟨1, 2, 3, 4, 5⟩ "zx" true = "") :=
  ⟨⟨by decide, (delta_selector_alias_groups.2.2.1 "Ym" 'q' (by decide)).1⟩,
    ⟨by intro u; cases u <;> rfl,
      delta_selector_alias_groups.2.2.2 ⟨1, 2, 3, 4, 5⟩ true "zx"
        (by intro u; cases u <;> rfl)⟩⟩

/-- C9: for an aware timestamp and any day offset, `get_midnight` follows
the spec algorithm exactly — convert to the current local zone, take the
local calendar date shifted by the offset in whole days, and attach the
current zone to clock time 00:00 on that date with assume semantics — and
at offset 0 the result reads 00:00 on the clock in the current zone. -/
theorem get_midnight_local_midnight (ctx : Ctx) (t : DT) (z0 : Tz) (k : Int)
    (h : t.tz = some z0) :
    get_midnight ctx t k = midnightSpec ctx t k ∧
    ∃ m, get_midnight ctx t 0 = .ok m ∧ m.clock % 1440 = 0 ∧
      m.tz = some ctx.currentTz := by
  constructor
  · simp only [get_midnight, midnightSpec, localtime, h, pure_eq_ok, ok_bind,
      make_aware, DT.mk.injEq, Except.ok.injEq, and_true]
    omega
  · have hg : get_midnight ctx t 0 =
        .ok ⟨(t.clock - z0.offsetMin + ctx.currentTz.offsetMin + 0 * 1440) -
          (t.clock - z0.offsetMin + ctx.currentTz.offsetMin + 0 * 1440) % 1440,
          some ctx.currentTz⟩ := by
      simp only [get_midnight, localtime, h, pure_eq_ok, ok_bind, make_aware]
    exact ⟨_, hg, by dsimp only; omega, rfl⟩

/-- C9 (witness): the spec algorithm and the local-midnight reading on a
concrete aware timestamp (UTC clock 5000 is CET clock 5060; the preceding
CET midnight is 4320 = 3 days after the epoch). -/
theorem get_midnight_local_midnight_witness :
    (⟨5000, some utcTz⟩ : DT).tz = some utcTz ∧
    (get_midnight ctxW ⟨5000, some utcTz⟩ 1 =
        midnightSpec ctxW ⟨5000, some utcTz⟩ 1 ∧
      ∃ m, get_midnight ctxW ⟨5000, some utcTz⟩ 0 = .ok m ∧
        m.clock % 1440 = 0 ∧ m.tz = some ctxW.currentTz) ∧
    get_midnight ctxW ⟨5000, some utcTz⟩ 0 = .ok ⟨4320, some ⟨"CET", 60⟩⟩ :=
  ⟨rfl, get_midnight_local_midnight ctxW ⟨5000, some utcTz⟩ utcTz 1 rfl, rfl⟩

/-- C10: with a non-empty `format` argument `date_now` returns a string —
the strftime rendering of the timestamp it would otherwise return — with
the values "iso"/"iso8601" (case-insensitively) replaced by the ISO-8601
pattern first; with an empty (falsy) `format` it behaves exactly as with no
`format`, returning the aware timestamp itself. -/
theorem date_now_format_string (ctx : Ctx) (ltz tza : PyVal) (f : String)
    (d : DT) (hf : f ≠ "") (h : date_now ctx ltz none tza = .ok (.dt d)) :
    date_now ctx ltz (some f) tza =
      .ok (.str (ctx.strftime d
        (if pyLower f = "iso" || pyLower f = "iso8601" then
          ISO8601_DATE_FORMAT else f))) ∧
    date_now ctx ltz (some "") tza = date_now ctx ltz none tza := by
  have hb : date_now_aware ctx ltz tza = .ok d := by
    cases hb : date_now_aware ctx ltz tza with
    | error e =>
      simp only [date_now, hb, err_bind] at h
      exact Except.noConfusion h
    | ok a =>
      simp only [date_now, hb, pure_eq_ok, ok_bind, Except.ok.injEq,
        DnRes.dt.injEq] at h
      rw [h]
  constructor
  · simp only [date_now, hb, pure_eq_ok, ok_bind, hf]
    simp [hf]
  · rfl

/-- C10 (witness): the "ISO" alias rendered through the concrete context's
strftime, and the empty format behaving like the absent format. -/
theorem date_now_format_string_witness :
    ("ISO" : String) ≠ "" ∧
    date_now ctxW .vFalse none .vNone = .ok (.dt ⟨100000, some utcTz⟩) ∧
    date_now ctxW .vFalse (some "ISO") .vNone =
      .ok (.str "%Y-%m-%dT%H:%M:%S%z@100000") ∧
    date_now ctxW .vFalse (some "") .vNone =
      date_now ctxW .vFalse none .vNone := by
  have h := date_now_format_string ctxW .vFalse .vNone "ISO"
    ⟨100000, some utcTz⟩ (by decide) rfl
  refine ⟨by decide, rfl, ?_, h.2⟩
  rw [h.1]
  rfl
